import Mathlib

/-!
# Verification of the `cdsexec` mock command layer

Shallow embedding of the `mockcmd` package of `github.com/cirrusdata/cdsexec`:
the single-response test double `MockCmd` and the multi-configuration matcher
`MultiCmdMockCmd` (file `mockcmd/mockcmd.go`), together with theorems about
their behaviour.

Modelling conventions:
* Go byte slices (`[]byte`) only ever get concatenated or returned here, so
  they are modelled as `String` (nil slice = `""`).
* Go string slices (`[]string`) are modelled as `Option (List String)`:
  `none` is the nil slice, `some l` a non-nil slice with elements `l`.  This
  distinction matters because `matchCommand` compares argument slices with
  `reflect.DeepEqual`, which distinguishes a nil slice from a non-nil empty
  slice.
* Go `error` values are modelled as `Option GoError` (`none` = nil error);
  `GoError.errNoMatchingCommand` is the sentinel `ErrNoMatchingCommand`,
  and `GoError.other n` stands for any other distinct error value.
* `context.Context` is never consulted by the mocks, so it is modelled as an
  opaque `Nat` tag.
* Methods that mutate the receiver are modelled as functions from the state
  to a (result, new state) pair.
-/

/-- Go `error` values occurring in the mock layer: `none : Option GoError`
is the nil error, `errNoMatchingCommand` is the package-level sentinel
`ErrNoMatchingCommand`, and `other n` stands for an arbitrary caller-supplied
error value distinct from the sentinel. -/
inductive GoError where
  | errNoMatchingCommand : GoError
  | other : Nat → GoError
deriving DecidableEq, Repr

/-- Model of Go's `reflect.DeepEqual` restricted to `[]string` values:
two slices are deeply equal iff they are both nil, or both non-nil with
equal length and equal elements in order. A nil slice is *not* deeply
equal to a non-nil empty slice. -/
def deepEqualStrSlice : Option (List String) → Option (List String) → Bool
  | none, none => true
  | some a, some b => a == b
  | _, _ => false

/-- `strings.Join(args, " ")` as used by the matcher's diagnostic; a nil
slice joins to the empty string. -/
def joinSpace (args : Option (List String)) : String :=
  String.intercalate " " (args.getD [])

/-- `CommandConfig`: one configured expectation of the multi-command mock
(`mockcmd.go`): a (name, args) pattern with canned stdout, stderr and
error. -/
structure CommandConfig where
  Name : String
  Args : Option (List String)
  Stdout : String
  Stderr : String
  Err : Option GoError
deriving DecidableEq, Repr

/-- The data fields of a `MockCmd` (everything except the check function).
Go's `CheckFunc` receives the `*MockCmd` itself; since a Lean structure
field cannot take the structure containing it as an argument, the check
function is modelled as receiving this data record. -/
structure MockCmdData where
  Stdout : String
  Stderr : String
  Err : Option GoError
  Ctx : Nat
  Name : String
  Args : Option (List String)
  Dir : String
  Env : List String
  startCalled : Bool
  waitCalled : Bool
deriving DecidableEq, Repr

/-- `MockCmd`: the single-response test double — fixed stdout/stderr/error,
the recorded construction details, an optional check function, and the
`startCalled`/`waitCalled` flags (all carried inside `data`). -/
structure MockCmd where
  data : MockCmdData
  CheckFunc : Option (MockCmdData → Option GoError)

namespace MockCmd

/-- Promoted field accessors mirroring Go's direct field access. -/
def Stdout (m : MockCmd) : String := m.data.Stdout

def Stderr (m : MockCmd) : String := m.data.Stderr

def Err (m : MockCmd) : Option GoError := m.data.Err

def Ctx (m : MockCmd) : Nat := m.data.Ctx

def Name (m : MockCmd) : String := m.data.Name

def Args (m : MockCmd) : Option (List String) := m.data.Args

/-- `MockCmd.Run`: runs the check function if set, returning its error when
non-nil; otherwise returns the predefined `Err`. -/
def Run (m : MockCmd) : Option GoError :=
  match m.CheckFunc with
  | some check =>
    match check m.data with
    | some err => some err
    | none => m.Err
  | none => m.Err

/-- `MockCmd.Output`: check function first (on failure returns nil output
and its error), then the predefined stdout and `Err`. -/
def Output (m : MockCmd) : String × Option GoError :=
  match m.CheckFunc with
  | some check =>
    match check m.data with
    | some err => ("", some err)
    | none => (m.Stdout, m.Err)
  | none => (m.Stdout, m.Err)

/-- `MockCmd.CombinedOutput`: check function first, then
`append(m.Stdout, m.Stderr...)` and `Err`. -/
def CombinedOutput (m : MockCmd) : String × Option GoError :=
  match m.CheckFunc with
  | some check =>
    match check m.data with
    | some err => ("", some err)
    | none => (m.Stdout ++ m.Stderr, m.Err)
  | none => (m.Stdout ++ m.Stderr, m.Err)

/-- `MockCmd.Start`: marks the command started, then returns the check
function's result *directly* when one is set (even `nil`), otherwise the
predefined `Err`. -/
def Start (m : MockCmd) : Option GoError × MockCmd :=
  let m' : MockCmd := { m with data := { m.data with startCalled := true } }
  match m'.CheckFunc with
  | some check => (check m'.data, m')
  | none => (m'.Err, m')

/-- `MockCmd.Wait`: marks the command waited and returns `Err`. -/
def Wait (m : MockCmd) : Option GoError × MockCmd :=
  let m' : MockCmd := { m with data := { m.data with waitCalled := true } }
  (m'.Err, m')

end MockCmd

/-- `mockCommandContext`: builds a fresh `MockCmd` holding the context,
name and arguments; every other field takes its Go zero value. -/
def mockCommandContext (ctx : Nat) (name : String) (arg : Option (List String)) : MockCmd :=
  { data :=
      { Stdout := "", Stderr := "", Err := none, Ctx := ctx, Name := name, Args := arg,
        Dir := "", Env := [], startCalled := false, waitCalled := false },
    CheckFunc := none }

/-- `MultiCmdMockCmd`: the multi-configuration matcher — an embedded
`MockCmd` (whose fields Go promotes), the configured expectation list, and
the `lastMatchedCmd` reference. -/
structure MultiCmdMockCmd where
  mock : MockCmd
  configs : List CommandConfig
  lastMatchedCmd : Option CommandConfig

/-- The matching predicate of `MultiCmdMockCmd.matchCommand`:
`m.Name == config.Name && reflect.DeepEqual(m.Args, config.Args)`. -/
def cmdMatches (name : String) (args : Option (List String)) (config : CommandConfig) : Bool :=
  name == config.Name && deepEqualStrSlice args config.Args

namespace MultiCmdMockCmd

/-- `MultiCmdMockCmd.matchCommand`: clears `lastMatchedCmd`, scans the
configs in order, and for the first one whose name and argument slice are
equal (per `reflect.DeepEqual`) copies its stdout/stderr/error into the
embedded `MockCmd` fields and records it as last matched; if none matches,
sets `Stderr` to nil and `Err` to the sentinel (leaving `Stdout` as it
was).  The Go method always returns a nil error; the returned
`Option GoError` models that return value. -/
def matchCommand (m : MultiCmdMockCmd) : Option GoError × MultiCmdMockCmd :=
  let m0 : MultiCmdMockCmd := { m with lastMatchedCmd := none }
  match m0.configs.find? (cmdMatches m0.mock.Name m0.mock.Args) with
  | some config =>
    (none,
      { m0 with
        mock :=
          { m0.mock with
            data :=
              { m0.mock.data with
                Stdout := config.Stdout, Stderr := config.Stderr, Err := config.Err } },
        lastMatchedCmd := some config })
  | none =>
    (none,
      { m0 with
        mock :=
          { m0.mock with
            data :=
              { m0.mock.data with
                Stderr := "", Err := some GoError.errNoMatchingCommand } } })

/-- `MultiCmdMockCmd.Run`: match, then return the (possibly updated)
`Err` field; an error from `matchCommand` would be returned early, but
`matchCommand` never produces one. -/
def Run (m : MultiCmdMockCmd) : Option GoError × MultiCmdMockCmd :=
  match m.matchCommand with
  | (some err, m') => (some err, m')
  | (none, m') => (m'.mock.Err, m')

/-- `MultiCmdMockCmd.Output`: match, then return `(Stdout, Err)`. -/
def Output (m : MultiCmdMockCmd) : (String × Option GoError) × MultiCmdMockCmd :=
  match m.matchCommand with
  | (some err, m') => (("", some err), m')
  | (none, m') => ((m'.mock.Stdout, m'.mock.Err), m')

/-- `MultiCmdMockCmd.CombinedOutput`: match, then return
`(append(Stdout, Stderr...), Err)`. -/
def CombinedOutput (m : MultiCmdMockCmd) : (String × Option GoError) × MultiCmdMockCmd :=
  match m.matchCommand with
  | (some err, m') => (("", some err), m')
  | (none, m') => ((m'.mock.Stdout ++ m'.mock.Stderr, m'.mock.Err), m')

/-- `MultiCmdMockCmd.String` (named `describe` here because `String` is the
ambient string type): the diagnostic for the most recent matching attempt. -/
def describe (m : MultiCmdMockCmd) : String :=
  match m.lastMatchedCmd with
  | none => "No matching command found for: " ++ m.mock.Name ++ " " ++ joinSpace m.mock.Args
  | some config => "Matched command: " ++ config.Name ++ " " ++ joinSpace config.Args

end MultiCmdMockCmd

/-- `MultiCmdMock(configs...)` applied to `(ctx, name, arg...)`: builds a
`MultiCmdMockCmd` holding the configs and records ctx/name/args in the
embedded `MockCmd`; all other fields take their Go zero values. -/
def MultiCmdMock (configs : List CommandConfig) (ctx : Nat) (name : String)
    (arg : Option (List String)) : MultiCmdMockCmd :=
  { mock := mockCommandContext ctx name arg,
    configs := configs,
    lastMatchedCmd := none }

/-- `n`-fold repetition of a state-passing call: `callN f m 0` is the first
call, `callN f m n` the `(n+1)`-st, each fed the state the previous call
left behind. -/
def callN {R : Type} (f : MultiCmdMockCmd → R × MultiCmdMockCmd)
    (m : MultiCmdMockCmd) : Nat → R × MultiCmdMockCmd
  | 0 => f m
  | n + 1 => f (callN f m n).2

/-- The state `matchCommand` leaves behind when config `c` is the first
match: stdout/stderr/error copied from `c`, `lastMatchedCmd := some c`. -/
def afterMatch (m : MultiCmdMockCmd) (c : CommandConfig) : MultiCmdMockCmd :=
  { mock :=
      { m.mock with
        data := { m.mock.data with Stdout := c.Stdout, Stderr := c.Stderr, Err := c.Err } },
    configs := m.configs,
    lastMatchedCmd := some c }

/-- The state `matchCommand` leaves behind when no config matches: stderr
cleared, error set to the sentinel, stdout untouched, `lastMatchedCmd`
cleared. -/
def afterNoMatch (m : MultiCmdMockCmd) : MultiCmdMockCmd :=
  { mock :=
      { m.mock with
        data :=
          { m.mock.data with Stderr := "", Err := some GoError.errNoMatchingCommand } },
    configs := m.configs,
    lastMatchedCmd := none }

/-- The element sequence denoted by a Go `[]string` value: a nil slice and
a non-nil empty slice both denote the empty sequence. -/
def argElems (args : Option (List String)) : List String := args.getD []

/-- Matching as the spec words it (for comparison with the code's
`cmdMatches`): "name is equal and argument sequences are equal
element-wise, in order, including count" — i.e. equality of the denoted
element sequences, which does not distinguish a nil slice from a non-nil
empty slice. -/
def specMatches (name : String) (args : Option (List String)) (c : CommandConfig) : Bool :=
  name == c.Name && argElems args == argElems c.Args

/-- The "matched" outcome of a result-producing call: the post-state's
`lastMatchedCmd` points at a configured expectation that matches the
invocation held by the handle. -/
def matchedOutcome (m m' : MultiCmdMockCmd) : Prop :=
  ∃ c, m'.lastMatchedCmd = some c ∧ c ∈ m.configs ∧
    cmdMatches m.mock.Name m.mock.Args c = true

/-- The "no match" outcome of a result-producing call: the returned error
is the sentinel and the post-state's `lastMatchedCmd` is unset. -/
def noMatchOutcome (err : Option GoError) (m' : MultiCmdMockCmd) : Prop :=
  err = some GoError.errNoMatchingCommand ∧ m'.lastMatchedCmd = none

/-- A concrete `MockCmd` with a succeeding check function and a non-nil
configured error, used by the C10 witness. -/
def sampleMockCmd : MockCmd :=
  { data :=
      { Stdout := "out", Stderr := "err", Err := some (GoError.other 1), Ctx := 0,
        Name := "ls", Args := some ["-l"], Dir := "", Env := [],
        startCalled := false, waitCalled := false },
    CheckFunc := some (fun _ => none) }

theorem matchCommand_found (m : MultiCmdMockCmd) (c : CommandConfig)
    (h : m.configs.find? (cmdMatches m.mock.Name m.mock.Args) = some c) :
    m.matchCommand = (none, afterMatch m c) := by
  simp only [MultiCmdMockCmd.matchCommand, h, afterMatch]

theorem matchCommand_not_found (m : MultiCmdMockCmd)
    (h : m.configs.find? (cmdMatches m.mock.Name m.mock.Args) = none) :
    m.matchCommand = (none, afterNoMatch m) := by
  simp only [MultiCmdMockCmd.matchCommand, h, afterNoMatch]

theorem Run_found (m : MultiCmdMockCmd) (c : CommandConfig)
    (h : m.configs.find? (cmdMatches m.mock.Name m.mock.Args) = some c) :
    m.Run = (c.Err, afterMatch m c) := by
  simp only [MultiCmdMockCmd.Run, matchCommand_found m c h]
  rfl

theorem Run_not_found (m : MultiCmdMockCmd)
    (h : m.configs.find? (cmdMatches m.mock.Name m.mock.Args) = none) :
    m.Run = (some GoError.errNoMatchingCommand, afterNoMatch m) := by
  simp only [MultiCmdMockCmd.Run, matchCommand_not_found m h]
  rfl

theorem Output_found (m : MultiCmdMockCmd) (c : CommandConfig)
    (h : m.configs.find? (cmdMatches m.mock.Name m.mock.Args) = some c) :
    m.Output = ((c.Stdout, c.Err), afterMatch m c) := by
  simp only [MultiCmdMockCmd.Output, matchCommand_found m c h]
  rfl

theorem Output_not_found (m : MultiCmdMockCmd)
    (h : m.configs.find? (cmdMatches m.mock.Name m.mock.Args) = none) :
    m.Output = ((m.mock.Stdout, some GoError.errNoMatchingCommand), afterNoMatch m) := by
  simp only [MultiCmdMockCmd.Output, matchCommand_not_found m h]
  rfl

theorem CombinedOutput_found (m : MultiCmdMockCmd) (c : CommandConfig)
    (h : m.configs.find? (cmdMatches m.mock.Name m.mock.Args) = some c) :
    m.CombinedOutput = ((c.Stdout ++ c.Stderr, c.Err), afterMatch m c) := by
  simp only [MultiCmdMockCmd.CombinedOutput, matchCommand_found m c h]
  rfl

theorem CombinedOutput_not_found (m : MultiCmdMockCmd)
    (h : m.configs.find? (cmdMatches m.mock.Name m.mock.Args) = none) :
    m.CombinedOutput =
      ((m.mock.Stdout ++ "", some GoError.errNoMatchingCommand), afterNoMatch m) := by
  simp only [MultiCmdMockCmd.CombinedOutput, matchCommand_not_found m h]
  rfl

theorem deepEqualStrSlice_iff (a b : Option (List String)) :
    deepEqualStrSlice a b = true ↔ a = b := by
  cases a <;> cases b <;> simp [deepEqualStrSlice]

/-- The code's matching predicate holds exactly when the name is equal and
the argument slices are equal as `Option` values (same nil-ness, same
elements in order and count). -/
theorem cmdMatches_iff (name : String) (args : Option (List String)) (c : CommandConfig) :
    cmdMatches name args c = true ↔ (name = c.Name ∧ args = c.Args) := by
  simp [cmdMatches, deepEqualStrSlice_iff]

theorem afterMatch_Name (m : MultiCmdMockCmd) (c : CommandConfig) :
    (afterMatch m c).mock.Name = m.mock.Name := rfl

theorem afterMatch_Args (m : MultiCmdMockCmd) (c : CommandConfig) :
    (afterMatch m c).mock.Args = m.mock.Args := rfl

theorem afterMatch_configs (m : MultiCmdMockCmd) (c : CommandConfig) :
    (afterMatch m c).configs = m.configs := rfl

theorem afterNoMatch_Name (m : MultiCmdMockCmd) :
    (afterNoMatch m).mock.Name = m.mock.Name := rfl

theorem afterNoMatch_Args (m : MultiCmdMockCmd) :
    (afterNoMatch m).mock.Args = m.mock.Args := rfl

theorem afterNoMatch_configs (m : MultiCmdMockCmd) :
    (afterNoMatch m).configs = m.configs := rfl

theorem afterNoMatch_Stdout (m : MultiCmdMockCmd) :
    (afterNoMatch m).mock.Stdout = m.mock.Stdout := rfl

theorem afterMatch_idem (m : MultiCmdMockCmd) (c : CommandConfig) :
    afterMatch (afterMatch m c) c = afterMatch m c := rfl

theorem afterNoMatch_idem (m : MultiCmdMockCmd) :
    afterNoMatch (afterNoMatch m) = afterNoMatch m := rfl

/-- Running `Run` a second time from the state the first call left behind
produces the same result and state. -/
theorem Run_stable (m : MultiCmdMockCmd) : (m.Run).2.Run = m.Run := by
  rcases h : m.configs.find? (cmdMatches m.mock.Name m.mock.Args) with _ | c
  · have h2 : (afterNoMatch m).configs.find?
        (cmdMatches (afterNoMatch m).mock.Name (afterNoMatch m).mock.Args) = none := by
      rw [afterNoMatch_Name, afterNoMatch_Args, afterNoMatch_configs]; exact h
    rw [Run_not_found m h, Run_not_found _ h2, afterNoMatch_idem]
  · have h2 : (afterMatch m c).configs.find?
        (cmdMatches (afterMatch m c).mock.Name (afterMatch m c).mock.Args) = some c := by
      rw [afterMatch_Name, afterMatch_Args, afterMatch_configs]; exact h
    rw [Run_found m c h, Run_found _ c h2, afterMatch_idem]

/-- Running `Output` a second time from the state the first call left
behind produces the same result and state. -/
theorem Output_stable (m : MultiCmdMockCmd) : (m.Output).2.Output = m.Output := by
  rcases h : m.configs.find? (cmdMatches m.mock.Name m.mock.Args) with _ | c
  · have h2 : (afterNoMatch m).configs.find?
        (cmdMatches (afterNoMatch m).mock.Name (afterNoMatch m).mock.Args) = none := by
      rw [afterNoMatch_Name, afterNoMatch_Args, afterNoMatch_configs]; exact h
    rw [Output_not_found m h, Output_not_found _ h2, afterNoMatch_idem, afterNoMatch_Stdout]
  · have h2 : (afterMatch m c).configs.find?
        (cmdMatches (afterMatch m c).mock.Name (afterMatch m c).mock.Args) = some c := by
      rw [afterMatch_Name, afterMatch_Args, afterMatch_configs]; exact h
    rw [Output_found m c h, Output_found _ c h2, afterMatch_idem]

/-- Running `CombinedOutput` a second time from the state the first call
left behind produces the same result and state. -/
theorem CombinedOutput_stable (m : MultiCmdMockCmd) :
    (m.CombinedOutput).2.CombinedOutput = m.CombinedOutput := by
  rcases h : m.configs.find? (cmdMatches m.mock.Name m.mock.Args) with _ | c
  · have h2 : (afterNoMatch m).configs.find?
        (cmdMatches (afterNoMatch m).mock.Name (afterNoMatch m).mock.Args) = none := by
      rw [afterNoMatch_Name, afterNoMatch_Args, afterNoMatch_configs]; exact h
    rw [CombinedOutput_not_found m h, CombinedOutput_not_found _ h2, afterNoMatch_idem,
      afterNoMatch_Stdout]
  · have h2 : (afterMatch m c).configs.find?
        (cmdMatches (afterMatch m c).mock.Name (afterMatch m c).mock.Args) = some c := by
      rw [afterMatch_Name, afterMatch_Args, afterMatch_configs]; exact h
    rw [CombinedOutput_found m c h, CombinedOutput_found _ c h2, afterMatch_idem]

/-- When a single call is a fixpoint of the state, every repetition of the
call returns what the first one returned. -/
theorem callN_const {R : Type} (f : MultiCmdMockCmd → R × MultiCmdMockCmd)
    (m : MultiCmdMockCmd) (hf : f (f m).2 = f m) : ∀ n, callN f m n = f m
  | 0 => rfl
  | n + 1 => by rw [callN, callN_const f m hf n, hf]

/-- The concrete scenario of the spec: expectations
`[{name:"ls", args:["-l"], stdout:"file1\nfile2\n"}]`; invoking with
("ls", "-l") yields that output and a nil error, invoking with
("ls", "-a") yields empty output and the sentinel. -/
theorem spec_concrete_scenario :
    ((MultiCmdMock [⟨"ls", some ["-l"], "file1\nfile2\n", "", none⟩] 0 "ls"
      (some ["-l"])).Output).1 = ("file1\nfile2\n", none) ∧
    ((MultiCmdMock [⟨"ls", some ["-l"], "file1\nfile2\n", "", none⟩] 0 "ls"
      (some ["-a"])).Output).1 = ("", some GoError.errNoMatchingCommand) := by
  refine ⟨by decide, by decide⟩

/-- C1: for every configuration list and every invocation whose (name,
args) is matched by some configured expectation, `Output()` on the
constructed matcher handle returns the first matching expectation's
configured stdout bytes together with its configured error field — the
configured bytes are returned even when that error is non-nil (the error
field `c.Err` is unconstrained). -/
theorem C1_output_returns_first_match (configs : List CommandConfig) (ctx : Nat)
    (name : String) (args : Option (List String)) (c : CommandConfig)
    (h : configs.find? (cmdMatches name args) = some c) :
    ((MultiCmdMock configs ctx name args).Output).1 = (c.Stdout, c.Err) := by
  have h' : (MultiCmdMock configs ctx name args).configs.find?
      (cmdMatches (MultiCmdMock configs ctx name args).mock.Name
        (MultiCmdMock configs ctx name args).mock.Args) = some c := h
  rw [Output_found _ c h']

/-- Witness for C1: a two-entry configuration where the first entry has a
non-nil error; `Output()` returns the first entry's bytes and error. -/
theorem C1_output_returns_first_match_witness :
    ((MultiCmdMock
        [⟨"ls", some ["-l"], "file1\n", "", some (GoError.other 7)⟩,
          ⟨"ls", some ["-l"], "other", "", none⟩] 0 "ls" (some ["-l"])).Output).1 =
      ("file1\n", some (GoError.other 7)) :=
  C1_output_returns_first_match
    [⟨"ls", some ["-l"], "file1\n", "", some (GoError.other 7)⟩,
      ⟨"ls", some ["-l"], "other", "", none⟩] 0 "ls" (some ["-l"])
    ⟨"ls", some ["-l"], "file1\n", "", some (GoError.other 7)⟩ (by decide)

/-- C2: for every configuration list and every invocation matching no
configured expectation, `Run()`, `Output()` and `CombinedOutput()` on a
freshly constructed matcher handle all return the sentinel
`ErrNoMatchingCommand`, and `Output()`/`CombinedOutput()` return empty
output. -/
theorem C2_no_match_returns_sentinel (configs : List CommandConfig) (ctx : Nat)
    (name : String) (args : Option (List String))
    (h : configs.find? (cmdMatches name args) = none) :
    ((MultiCmdMock configs ctx name args).Run).1 = some GoError.errNoMatchingCommand ∧
    ((MultiCmdMock configs ctx name args).Output).1 =
      ("", some GoError.errNoMatchingCommand) ∧
    ((MultiCmdMock configs ctx name args).CombinedOutput).1 =
      ("", some GoError.errNoMatchingCommand) := by
  have h' : (MultiCmdMock configs ctx name args).configs.find?
      (cmdMatches (MultiCmdMock configs ctx name args).mock.Name
        (MultiCmdMock configs ctx name args).mock.Args) = none := h
  refine ⟨?_, ?_, ?_⟩
  · rw [Run_not_found _ h']
  · rw [Output_not_found _ h']; rfl
  · rw [CombinedOutput_not_found _ h']; rfl

/-- Witness for C2: an argument-count/value mismatch against a known name
yields empty output and the sentinel from all three operations. -/
theorem C2_no_match_returns_sentinel_witness :
    ((MultiCmdMock [⟨"ls", some ["-l"], "x", "", none⟩] 0 "ls" (some ["-a"])).Run).1 =
      some GoError.errNoMatchingCommand ∧
    ((MultiCmdMock [⟨"ls", some ["-l"], "x", "", none⟩] 0 "ls" (some ["-a"])).Output).1 =
      ("", some GoError.errNoMatchingCommand) ∧
    ((MultiCmdMock [⟨"ls", some ["-l"], "x", "", none⟩] 0 "ls"
        (some ["-a"])).CombinedOutput).1 =
      ("", some GoError.errNoMatchingCommand) :=
  C2_no_match_returns_sentinel [⟨"ls", some ["-l"], "x", "", none⟩] 0 "ls" (some ["-a"])
    (by decide)

/-- C4: when the configuration list contains two or more expectations with
the same (name, args) pattern, an invocation with that pattern adopts the
stdout, stderr and error of the earliest such expectation, for every later
tail `l2` (so later duplicates are unreachable), and construction stores
the configuration list verbatim — no validation rejects the duplicates. -/
theorem C4_first_duplicate_wins (l1 l2 : List CommandConfig) (c d : CommandConfig)
    (ctx : Nat) (name : String) (args : Option (List String))
    (h1 : ∀ e ∈ l1, ¬(name = e.Name ∧ args = e.Args))
    (h2 : name = c.Name ∧ args = c.Args)
    (_h3 : d ∈ l2 ∧ d.Name = c.Name ∧ d.Args = c.Args) :
    ((MultiCmdMock (l1 ++ c :: l2) ctx name args).Output).1 = (c.Stdout, c.Err) ∧
    ((MultiCmdMock (l1 ++ c :: l2) ctx name args).Run).1 = c.Err ∧
    ((MultiCmdMock (l1 ++ c :: l2) ctx name args).CombinedOutput).1 =
      (c.Stdout ++ c.Stderr, c.Err) ∧
    (MultiCmdMock (l1 ++ c :: l2) ctx name args).configs = l1 ++ c :: l2 := by
  have hl1 : l1.find? (cmdMatches name args) = none := by
    rw [List.find?_eq_none]
    intro e he
    simpa [cmdMatches_iff] using h1 e he
  have hc : cmdMatches name args c = true := (cmdMatches_iff name args c).mpr h2
  have hfind : (l1 ++ c :: l2).find? (cmdMatches name args) = some c := by
    rw [List.find?_append, hl1, Option.none_or, List.find?_cons_of_pos _ hc]
  have h' : (MultiCmdMock (l1 ++ c :: l2) ctx name args).configs.find?
      (cmdMatches (MultiCmdMock (l1 ++ c :: l2) ctx name args).mock.Name
        (MultiCmdMock (l1 ++ c :: l2) ctx name args).mock.Args) = some c := hfind
  refine ⟨?_, ?_, ?_, rfl⟩
  · rw [Output_found _ c h']
  · rw [Run_found _ c h']
  · rw [CombinedOutput_found _ c h']

/-- Witness for C4: two expectations share the pattern ("ls", ["-l"]); the
invocation adopts the first one's stdout/stderr/error, and construction
keeps both entries. -/
theorem C4_first_duplicate_wins_witness :
    ((MultiCmdMock
        [⟨"git", some ["st"], "g", "", none⟩,
          ⟨"ls", some ["-l"], "first", "e1", some (GoError.other 1)⟩,
          ⟨"ls", some ["-l"], "second", "", none⟩] 0 "ls" (some ["-l"])).Output).1 =
      ("first", some (GoError.other 1)) ∧
    ((MultiCmdMock
        [⟨"git", some ["st"], "g", "", none⟩,
          ⟨"ls", some ["-l"], "first", "e1", some (GoError.other 1)⟩,
          ⟨"ls", some ["-l"], "second", "", none⟩] 0 "ls" (some ["-l"])).Run).1 =
      some (GoError.other 1) ∧
    ((MultiCmdMock
        [⟨"git", some ["st"], "g", "", none⟩,
          ⟨"ls", some ["-l"], "first", "e1", some (GoError.other 1)⟩,
          ⟨"ls", some ["-l"], "second", "", none⟩] 0 "ls"
        (some ["-l"])).CombinedOutput).1 = ("first" ++ "e1", some (GoError.other 1)) ∧
    (MultiCmdMock
        [⟨"git", some ["st"], "g", "", none⟩,
          ⟨"ls", some ["-l"], "first", "e1", some (GoError.other 1)⟩,
          ⟨"ls", some ["-l"], "second", "", none⟩] 0 "ls" (some ["-l"])).configs =
      [⟨"git", some ["st"], "g", "", none⟩,
        ⟨"ls", some ["-l"], "first", "e1", some (GoError.other 1)⟩,
        ⟨"ls", some ["-l"], "second", "", none⟩] :=
  C4_first_duplicate_wins [⟨"git", some ["st"], "g", "", none⟩]
    [⟨"ls", some ["-l"], "second", "", none⟩]
    ⟨"ls", some ["-l"], "first", "e1", some (GoError.other 1)⟩
    ⟨"ls", some ["-l"], "second", "", none⟩ 0 "ls" (some ["-l"])
    (by decide) (by decide) (by decide)

/-- C5: for every matched invocation, `CombinedOutput()` returns exactly
the matched expectation's stdout bytes immediately followed by its stderr
bytes, with no separator, alongside its error field. -/
theorem C5_combined_is_stdout_then_stderr (configs : List CommandConfig) (ctx : Nat)
    (name : String) (args : Option (List String)) (c : CommandConfig)
    (h : configs.find? (cmdMatches name args) = some c) :
    ((MultiCmdMock configs ctx name args).CombinedOutput).1 =
      (c.Stdout ++ c.Stderr, c.Err) := by
  have h' : (MultiCmdMock configs ctx name args).configs.find?
      (cmdMatches (MultiCmdMock configs ctx name args).mock.Name
        (MultiCmdMock configs ctx name args).mock.Args) = some c := h
  rw [CombinedOutput_found _ c h']

/-- Witness for C5: stdout "hello" and stderr " world" combine to
"hello world". -/
theorem C5_combined_is_stdout_then_stderr_witness :
    ((MultiCmdMock [⟨"greet", some [], "hello", " world", none⟩] 0 "greet"
        (some [])).CombinedOutput).1 = ("hello world", none) :=
  (C5_combined_is_stdout_then_stderr [⟨"greet", some [], "hello", " world", none⟩] 0
    "greet" (some []) ⟨"greet", some [], "hello", " world", none⟩ (by decide)).trans
    (by decide)

/-- C3 (amended): the matcher treats an invocation and an expectation as
matching iff the names are equal and the argument slices are deeply equal
in Go's sense — both nil, or both non-nil with the same elements in the
same order and count; a nil argument slice does not match a non-nil empty
one, and no partial, prefix, subset, superset or reordered match is
accepted.  Stated both observably (via `lastMatchedCmd` after `Output()`
against a single-expectation list) and on the matching predicate itself. -/
theorem C3_match_iff_name_and_deep_equal_args (name : String)
    (args : Option (List String)) (c : CommandConfig) (ctx : Nat) :
    (((MultiCmdMock [c] ctx name args).Output).2.lastMatchedCmd = some c ↔
      (name = c.Name ∧ args = c.Args)) ∧
    (cmdMatches name args c = true ↔ (name = c.Name ∧ args = c.Args)) ∧
    (∀ a b : List String, deepEqualStrSlice (some a) (some b) = true ↔ a = b) ∧
    deepEqualStrSlice none (some []) = false := by
  refine ⟨?_, cmdMatches_iff name args c, ?_, rfl⟩
  · have hm : (MultiCmdMock [c] ctx name args).mock.Name = name := rfl
    have ha : (MultiCmdMock [c] ctx name args).mock.Args = args := rfl
    rcases hb : cmdMatches name args c with _ | _
    · have hfind : (MultiCmdMock [c] ctx name args).configs.find?
          (cmdMatches (MultiCmdMock [c] ctx name args).mock.Name
            (MultiCmdMock [c] ctx name args).mock.Args) = none := by
        rw [hm, ha]
        show [c].find? (cmdMatches name args) = none
        rw [List.find?_eq_none]
        intro e he
        rw [List.mem_singleton] at he
        subst he
        simp [hb]
      rw [Output_not_found _ hfind]
      constructor
      · intro hcontra
        exact absurd hcontra (by simp [afterNoMatch])
      · intro heq
        exact absurd ((cmdMatches_iff name args c).mpr heq) (by simp [hb])
    · have hfind : (MultiCmdMock [c] ctx name args).configs.find?
          (cmdMatches (MultiCmdMock [c] ctx name args).mock.Name
            (MultiCmdMock [c] ctx name args).mock.Args) = some c := by
        rw [hm, ha]
        show [c].find? (cmdMatches name args) = some c
        rw [List.find?_singleton, if_pos hb]
      rw [Output_found _ c hfind]
      simp [afterMatch, (cmdMatches_iff name args c).mp hb]
  · intro a b
    simp [deepEqualStrSlice]

/-- Counterexample for C3 as stated: the invocation ("x", []string{}) (a
non-nil empty slice) and the expectation pattern ("x", nil) carry the same
elements in the same order — both are empty sequences, so the spec-worded
predicate `specMatches` accepts them — yet the code does not match:
`Output()` returns the sentinel and `lastMatchedCmd` stays unset. -/
theorem C3_counterexample :
    specMatches "x" (some []) ⟨"x", none, "out", "", none⟩ = true ∧
    ((MultiCmdMock [⟨"x", none, "out", "", none⟩] 0 "x" (some [])).Output).1 =
      ("", some GoError.errNoMatchingCommand) ∧
    ((MultiCmdMock [⟨"x", none, "out", "", none⟩] 0 "x"
        (some [])).Output).2.lastMatchedCmd = none := by
  refine ⟨by decide, by decide, by decide⟩

/-- C6: after each of `Run()`, `Output()` and `CombinedOutput()` on any
matcher handle, exactly one of the two outcomes holds — a matched
expectation is recorded, or the returned error is the sentinel with the
last-matched reference unset — never both and never neither, for every
configuration list including ones whose configured error values are
arbitrary (even the sentinel itself). -/
theorem C6_exactly_one_outcome (m : MultiCmdMockCmd) :
    Xor' (matchedOutcome m (m.Run).2) (noMatchOutcome (m.Run).1 (m.Run).2) ∧
    Xor' (matchedOutcome m (m.Output).2)
      (noMatchOutcome ((m.Output).1).2 (m.Output).2) ∧
    Xor' (matchedOutcome m (m.CombinedOutput).2)
      (noMatchOutcome ((m.CombinedOutput).1).2 (m.CombinedOutput).2) := by
  rcases h : m.configs.find? (cmdMatches m.mock.Name m.mock.Args) with _ | c
  · have hmm : ∀ m' : MultiCmdMockCmd, m'.lastMatchedCmd = none →
        ¬ matchedOutcome m m' := by
      intro m' hnone hcontra
      rcases hcontra with ⟨c, hc, _, _⟩
      rw [hnone] at hc
      exact Option.noConfusion hc
    refine ⟨?_, ?_, ?_⟩
    · rw [Run_not_found m h]
      exact Or.inr ⟨⟨rfl, rfl⟩, hmm _ rfl⟩
    · rw [Output_not_found m h]
      exact Or.inr ⟨⟨rfl, rfl⟩, hmm _ rfl⟩
    · rw [CombinedOutput_not_found m h]
      exact Or.inr ⟨⟨rfl, rfl⟩, hmm _ rfl⟩
  · have hmem : c ∈ m.configs := List.mem_of_find?_eq_some h
    have hp : cmdMatches m.mock.Name m.mock.Args c = true := List.find?_some h
    have hmatched : ∀ m' : MultiCmdMockCmd, m'.lastMatchedCmd = some c →
        matchedOutcome m m' := fun m' hm' => ⟨c, hm', hmem, hp⟩
    have hnotno : ∀ (err : Option GoError) (m' : MultiCmdMockCmd),
        m'.lastMatchedCmd = some c → ¬ noMatchOutcome err m' := by
      intro err m' hm' hcontra
      rw [hcontra.2] at hm'
      exact Option.noConfusion hm'
    refine ⟨?_, ?_, ?_⟩
    · rw [Run_found m c h]
      exact Or.inl ⟨hmatched _ rfl, hnotno _ _ rfl⟩
    · rw [Output_found m c h]
      exact Or.inl ⟨hmatched _ rfl, hnotno _ _ rfl⟩
    · rw [CombinedOutput_found m c h]
      exact Or.inl ⟨hmatched _ rfl, hnotno _ _ rfl⟩

/-- C7: calling the same result-producing operation repeatedly on a
matcher handle, each call starting from the state the previous one left
behind, returns the identical outcome (same output bytes, same error, and
even the same state) on every call — a single expectation satisfies
unboundedly many repeated identical invocations, with no consumption or
exhaustion. -/
theorem C7_repeated_calls_identical (m : MultiCmdMockCmd) (n : Nat) :
    callN MultiCmdMockCmd.Run m n = m.Run ∧
    callN MultiCmdMockCmd.Output m n = m.Output ∧
    callN MultiCmdMockCmd.CombinedOutput m n = m.CombinedOutput :=
  ⟨callN_const _ m (Run_stable m) n, callN_const _ m (Output_stable m) n,
    callN_const _ m (CombinedOutput_stable m) n⟩

/-- C8 (amended): the matcher's diagnostic reflects the outcome of the
most recent matching attempt, with the texts the code actually produces
(capitalized): after a result-producing call that matched it reads
"Matched command: <name> <args>", and after one that did not match — and
also on a freshly constructed handle before any result-producing call —
it reads "No matching command found for: <name> <args>". -/
theorem C8_describe_reflects_last_attempt :
    (∀ (configs : List CommandConfig) (ctx : Nat) (name : String)
        (args : Option (List String)),
      (MultiCmdMock configs ctx name args).describe =
        "No matching command found for: " ++ name ++ " " ++ joinSpace args) ∧
    (∀ (m : MultiCmdMockCmd) (c : CommandConfig),
      m.configs.find? (cmdMatches m.mock.Name m.mock.Args) = some c →
        ((m.Run).2.describe = "Matched command: " ++ c.Name ++ " " ++ joinSpace c.Args ∧
         (m.Output).2.describe =
           "Matched command: " ++ c.Name ++ " " ++ joinSpace c.Args ∧
         (m.CombinedOutput).2.describe =
           "Matched command: " ++ c.Name ++ " " ++ joinSpace c.Args)) ∧
    (∀ m : MultiCmdMockCmd,
      m.configs.find? (cmdMatches m.mock.Name m.mock.Args) = none →
        ((m.Run).2.describe =
           "No matching command found for: " ++ m.mock.Name ++ " " ++
             joinSpace m.mock.Args ∧
         (m.Output).2.describe =
           "No matching command found for: " ++ m.mock.Name ++ " " ++
             joinSpace m.mock.Args ∧
         (m.CombinedOutput).2.describe =
           "No matching command found for: " ++ m.mock.Name ++ " " ++
             joinSpace m.mock.Args)) := by
  refine ⟨fun configs ctx name args => rfl, ?_, ?_⟩
  · intro m c h
    rw [Run_found m c h, Output_found m c h, CombinedOutput_found m c h]
    exact ⟨rfl, rfl, rfl⟩
  · intro m h
    rw [Run_not_found m h, Output_not_found m h, CombinedOutput_not_found m h]
    exact ⟨rfl, rfl, rfl⟩

/-- Witness for C8 (amended): a matched call yields "Matched command: ls
-l"; an unmatched call (and a fresh handle) yields "No matching command
found for: ls -a". -/
theorem C8_describe_reflects_last_attempt_witness :
    ((MultiCmdMock [⟨"ls", some ["-l"], "o", "", none⟩] 0 "ls"
        (some ["-l"])).Output).2.describe = "Matched command: ls -l" ∧
    ((MultiCmdMock [⟨"ls", some ["-l"], "o", "", none⟩] 0 "ls"
        (some ["-a"])).Output).2.describe = "No matching command found for: ls -a" ∧
    (MultiCmdMock [⟨"ls", some ["-l"], "o", "", none⟩] 0 "ls" (some ["-a"])).describe =
      "No matching command found for: ls -a" := by
  refine ⟨?_, ?_, ?_⟩
  · exact ((C8_describe_reflects_last_attempt.2.1
      (MultiCmdMock [⟨"ls", some ["-l"], "o", "", none⟩] 0 "ls" (some ["-l"]))
      ⟨"ls", some ["-l"], "o", "", none⟩ (by decide)).2.1).trans (by decide)
  · exact ((C8_describe_reflects_last_attempt.2.2
      (MultiCmdMock [⟨"ls", some ["-l"], "o", "", none⟩] 0 "ls" (some ["-a"]))
      (by decide)).2.1).trans (by decide)
  · exact (C8_describe_reflects_last_attempt.1
      [⟨"ls", some ["-l"], "o", "", none⟩] 0 "ls" (some ["-a"])).trans (by decide)

/-- Counterexample for C8 as stated: the code capitalizes the diagnostic
("No matching command found for: ...", "Matched command: ..."), so a fresh
handle's diagnostic is not the lowercase "no matching command found for:
<name> <args>" the claim quotes, and a matched call's diagnostic is not
the lowercase "matched command: <name> <args>". -/
theorem C8_counterexample :
    (MultiCmdMock [] 0 "ls" (some ["-l"])).describe =
      "No matching command found for: ls -l" ∧
    (MultiCmdMock [] 0 "ls" (some ["-l"])).describe ≠
      "no matching command found for: ls -l" ∧
    ((MultiCmdMock [⟨"ls", some ["-l"], "o", "", none⟩] 0 "ls"
        (some ["-l"])).Output).2.describe ≠ "matched command: ls -l" := by
  refine ⟨by decide, by decide, by decide⟩

/-- C9: the expectations list held by a matcher is never mutated by any
operation (including the match itself), and handles built with the same
configuration, name and args under two different contexts return identical
results from every result-producing operation and from the diagnostic —
the context is stored but never consulted. -/
theorem C9_ctx_never_consulted_configs_immutable (configs : List CommandConfig)
    (c1 c2 : Nat) (name : String) (args : Option (List String)) :
    (((MultiCmdMock configs c1 name args).Run).1 =
        ((MultiCmdMock configs c2 name args).Run).1 ∧
      ((MultiCmdMock configs c1 name args).Output).1 =
        ((MultiCmdMock configs c2 name args).Output).1 ∧
      ((MultiCmdMock configs c1 name args).CombinedOutput).1 =
        ((MultiCmdMock configs c2 name args).CombinedOutput).1 ∧
      (MultiCmdMock configs c1 name args).describe =
        (MultiCmdMock configs c2 name args).describe) ∧
    (∀ m : MultiCmdMockCmd,
      (m.matchCommand).2.configs = m.configs ∧
      (m.Run).2.configs = m.configs ∧
      (m.Output).2.configs = m.configs ∧
      (m.CombinedOutput).2.configs = m.configs) := by
  constructor
  · have e1 : (MultiCmdMock configs c1 name args).configs.find?
        (cmdMatches (MultiCmdMock configs c1 name args).mock.Name
          (MultiCmdMock configs c1 name args).mock.Args) =
        configs.find? (cmdMatches name args) := rfl
    have e2 : (MultiCmdMock configs c2 name args).configs.find?
        (cmdMatches (MultiCmdMock configs c2 name args).mock.Name
          (MultiCmdMock configs c2 name args).mock.Args) =
        configs.find? (cmdMatches name args) := rfl
    rcases h : configs.find? (cmdMatches name args) with _ | c
    · rw [Run_not_found _ (e1.trans h), Run_not_found _ (e2.trans h),
        Output_not_found _ (e1.trans h), Output_not_found _ (e2.trans h),
        CombinedOutput_not_found _ (e1.trans h), CombinedOutput_not_found _ (e2.trans h)]
      exact ⟨rfl, rfl, rfl, rfl⟩
    · rw [Run_found _ c (e1.trans h), Run_found _ c (e2.trans h),
        Output_found _ c (e1.trans h), Output_found _ c (e2.trans h),
        CombinedOutput_found _ c (e1.trans h), CombinedOutput_found _ c (e2.trans h)]
      exact ⟨rfl, rfl, rfl, rfl⟩
  · intro m
    rcases h : m.configs.find? (cmdMatches m.mock.Name m.mock.Args) with _ | c
    · rw [matchCommand_not_found m h, Run_not_found m h, Output_not_found m h,
        CombinedOutput_not_found m h]
      exact ⟨rfl, rfl, rfl, rfl⟩
    · rw [matchCommand_found m c h, Run_found m c h, Output_found m c h,
        CombinedOutput_found m c h]
      exact ⟨rfl, rfl, rfl, rfl⟩

/-- C10: on the single-response double `MockCmd`, when a check function is
set and succeeds (returns nil), `Start()` returns the check result
directly — nil, even when a non-nil `Err` is configured — whereas `Run()`,
`Output()` and `CombinedOutput()` fall through and return the configured
`Err` (with their configured output bytes). -/
theorem C10_start_returns_check_result (m : MockCmd)
    (check : MockCmdData → Option GoError)
    (h1 : m.CheckFunc = some check) (h2 : ∀ d, check d = none) :
    (m.Start).1 = none ∧
    m.Run = m.Err ∧
    m.Output = (m.Stdout, m.Err) ∧
    m.CombinedOutput = (m.Stdout ++ m.Stderr, m.Err) := by
  refine ⟨?_, ?_, ?_, ?_⟩
  · simp only [MockCmd.Start, h1, h2]
  · simp only [MockCmd.Run, h1, h2]
  · simp only [MockCmd.Output, h1, h2]
  · simp only [MockCmd.CombinedOutput, h1, h2]

/-- Witness for C10: with a succeeding check function and `Err` set,
`Start()` returns nil while `Run()`/`Output()`/`CombinedOutput()` return
the configured error (and output). -/
theorem C10_start_returns_check_result_witness :
    (sampleMockCmd.Start).1 = none ∧
    sampleMockCmd.Run = some (GoError.other 1) ∧
    sampleMockCmd.Output = ("out", some (GoError.other 1)) ∧
    sampleMockCmd.CombinedOutput = ("outerr", some (GoError.other 1)) := by
  have h := C10_start_returns_check_result sampleMockCmd (fun _ => none) rfl
    (fun d => rfl)
  exact ⟨h.1, h.2.1, h.2.2.1, (h.2.2.2).trans (by decide)⟩
